import Mathlib

/-!
Verification development for the chat_modules server core.

The definitions below are a shallow embedding of the TypeScript/JavaScript
sources of the repository:

* `src/server/src/lib/ThreadStore.ts` — durable thread metadata and the
  append-only per-thread event log (`upsertThread`, `updateThreadMeta`,
  `appendEvent`, `listThreads`, `getThread`, `getThreadEvents`,
  `mapThreadRow`);
* `src/server/src/lib/DashboardStore.ts` — dashboards/plots with the fixed
  per-dashboard capacity (`addPlot`, `updatePlot`, `ensureCapacity`,
  `normalizeLayout`, `mapPlotRow`, `MAX_PLOTS_PER_DASHBOARD`);
* `src/server/dist/lib/KnowledgeStore.js` — content-addressed SQL snippet
  store (`saveKnowledgeEntries`, `computeSqlHash`);
* `src/server/dist/lib/AgentManager.js` — `startThread`'s locally minted
  thread id;
* `src/server/src/index.ts` — the `processChat` job pipeline
  (`isTemporaryThreadId`, `ensureUserEventPersisted`,
  `persistUserMessageEvent`, the eager-persistence phase, the stream
  consumption loop, the completion path and the catch block).

Conventions of the embedding:

* Nullable/optional JavaScript values are `Option`; JS truthiness of
  nullable strings (`null`, `undefined` and `""` are falsy) is `jsTruthy`.
* SQL tables are Lean lists of row structures; `WHERE id = x LIMIT 1` is
  `List.find?`, `UPDATE ... WHERE` maps over all matching rows, `INSERT`
  appends, `ORDER BY` is `List.mergeSort`.
* JSON-serialised columns (`eventPayload`, `chartSpec`, `chartOption`)
  hold the serialised value; since `JSON.parse ∘ JSON.stringify` is the
  identity on the values the server writes, serialisation is modelled as
  the identity and the parse-failure fallbacks of the readers are
  unreachable for rows written by the embedded writers.
* Wall-clock timestamps are opaque strings supplied by the caller
  (`new Date().toISOString()` becomes a `now : String` parameter).
-/

/-! ## JavaScript-semantics helpers -/

/-- JS truthiness of a nullable string: `null`/`undefined` and `""` are falsy. -/
def jsTruthy : Option String → Bool
  | none => false
  | some s => !(s == "")

/-- JS `a || b` where `a` is a nullable string and `b` a string fallback. -/
def jsOrStr (a : Option String) (b : String) : String :=
  match a with
  | some s => if s == "" then b else s
  | none => b

/-- JS `a ?? b` on nullable values (only `null`/`undefined` fall through). -/
def jsCoalesce {α : Type} : Option α → Option α → Option α
  | some a, _ => some a
  | none, b => b

/-- JS `s.slice(-6)`: the last six characters (the whole string if shorter). -/
def lastSixChars (s : String) : String :=
  s.drop (s.length - 6)

/-- JS `s.startsWith(p)` (modelled on the character lists so that it is
kernel-computable). -/
def strStartsWith (s p : String) : Bool :=
  p.data.isPrefixOf s.data

/-- JS `s.trim()` (modelled on the character lists so that it is
kernel-computable). -/
def jsTrim (s : String) : String :=
  String.mk (((s.data.dropWhile Char.isWhitespace).reverse.dropWhile
    Char.isWhitespace).reverse)

/-- JS `s.slice(0, n)` (modelled on the character lists so that it is
kernel-computable). -/
def jsSliceTo (s : String) (n : Nat) : String :=
  String.mk (s.data.take n)

/-! ## ThreadStore (src/server/src/lib/ThreadStore.ts)

`ε` is the type of (deserialised) event payloads stored in the
`thread_events` table; `ThreadEventRow.eventType` mirrors the denormalised
`eventType: event.type` column and `id` the autoincrement primary key. -/

structure ThreadRow where
  id : String
  agentType : String
  title : Option String
  lastUserMessage : Option String
  lastAgentMessage : Option String
  lastClientId : Option String
  createdAt : String
  updatedAt : String
deriving DecidableEq

structure ThreadEventRow (ε : Type) where
  id : Nat
  threadId : String
  jobId : String
  eventType : String
  eventPayload : ε
  createdAt : String
deriving DecidableEq

structure ThreadStoreState (ε : Type) where
  threads : List ThreadRow
  events : List (ThreadEventRow ε)
  nextEventId : Nat
deriving DecidableEq

def emptyThreadStore (ε : Type) : ThreadStoreState ε :=
  { threads := [], events := [], nextEventId := 0 }

/-- Payload of `ThreadStore.upsertThread` (`ThreadUpsertPayload` in the
source; the optional fields are `undefined` when `none`). -/
structure ThreadUpsertPayload where
  id : String
  agentType : String
  title : Option String
  lastUserMessage : Option String
  lastAgentMessage : Option String
  lastClientId : Option String
deriving DecidableEq

/-- `ThreadStore.upsertThread`: select by id; if a row exists, update it with
`title` resolved as `existingRow.title || title` (a falsy stored title is
replaced, an `undefined` resolved title leaves the column untouched) and the
other fields as `payload.x ?? existingRow.x`; otherwise insert a fresh row. -/
def ThreadStoreState.upsertThread {ε : Type} (s : ThreadStoreState ε)
    (p : ThreadUpsertPayload) (now : String) : ThreadStoreState ε :=
  match s.threads.find? (fun r => r.id == p.id) with
  | some existingRow =>
    let resolvedTitle : Option String :=
      if jsTruthy existingRow.title then existingRow.title else p.title
    let applyUpdate : ThreadRow → ThreadRow := fun r =>
      if r.id == p.id then
        { r with
          agentType := p.agentType
          title := match resolvedTitle with
            | some t => some t
            | none => r.title
          lastUserMessage := jsCoalesce p.lastUserMessage existingRow.lastUserMessage
          lastAgentMessage := jsCoalesce p.lastAgentMessage existingRow.lastAgentMessage
          lastClientId := jsCoalesce p.lastClientId existingRow.lastClientId
          updatedAt := now }
      else r
    { s with threads := s.threads.map applyUpdate }
  | none =>
    { s with threads := s.threads ++
        [{ id := p.id, agentType := p.agentType, title := p.title,
           lastUserMessage := p.lastUserMessage,
           lastAgentMessage := p.lastAgentMessage,
           lastClientId := p.lastClientId,
           createdAt := now, updatedAt := now }] }

/-- Field updates accepted by `ThreadStore.updateThreadMeta`; a field is
included in the SQL `SET` payload exactly when the caller passed a string
(the source's `typeof updates.x === 'string'` checks). -/
structure ThreadMetaUpdates where
  title : Option String
  lastUserMessage : Option String
  lastAgentMessage : Option String
  lastClientId : Option String
deriving DecidableEq

/-- `ThreadStore.updateThreadMeta`: no-op on a falsy thread id or an empty
update payload; otherwise update the provided columns plus `updatedAt`. -/
def ThreadStoreState.updateThreadMeta {ε : Type} (s : ThreadStoreState ε)
    (threadId : String) (u : ThreadMetaUpdates) (now : String) : ThreadStoreState ε :=
  if threadId == "" then s
  else if u.title.isNone && u.lastUserMessage.isNone &&
      u.lastAgentMessage.isNone && u.lastClientId.isNone then s
  else
    { s with threads := s.threads.map (fun r =>
        if r.id == threadId then
          { r with
            title := jsCoalesce u.title r.title
            lastUserMessage := jsCoalesce u.lastUserMessage r.lastUserMessage
            lastAgentMessage := jsCoalesce u.lastAgentMessage r.lastAgentMessage
            lastClientId := jsCoalesce u.lastClientId r.lastClientId
            updatedAt := now }
        else r) }

/-- `ThreadStore.appendEvent`: a falsy `threadId` only logs a warning and
returns; otherwise one row is inserted with the next autoincrement id,
`eventType := event.type` and the serialised event as payload. -/
def ThreadStoreState.appendEvent {ε : Type} (s : ThreadStoreState ε)
    (threadId jobId eventType : String) (payload : ε) (now : String) :
    ThreadStoreState ε :=
  if threadId == "" then s
  else
    { s with
      events := s.events ++
        [{ id := s.nextEventId, threadId := threadId, jobId := jobId,
           eventType := eventType, eventPayload := payload, createdAt := now }]
      nextEventId := s.nextEventId + 1 }

/-- Comparator for `ORDER BY thread_events.id ASC`. -/
def eventIdLe {ε : Type} (a b : ThreadEventRow ε) : Bool :=
  decide (a.id ≤ b.id)

/-- `ThreadStore.getThreadEvents`: rows of the thread ordered by ascending
id, mapped to their (re-parsed) payloads. -/
def ThreadStoreState.getThreadEvents {ε : Type} (s : ThreadStoreState ε)
    (threadId : String) : List ε :=
  (((s.events.filter (fun r => r.threadId == threadId)).mergeSort eventIdLe).map
    (fun r => r.eventPayload))

/-- The `PersistedThread` view returned by `mapThreadRow`. -/
structure PersistedThread where
  threadId : String
  agentType : String
  title : String
  lastUserMessage : Option String
  lastAgentMessage : Option String
  updatedAt : String
deriving DecidableEq

/-- `mapThreadRow`: the displayed title is
`row.title || row.lastUserMessage || `Thread X`` with `X` the last six
characters of the id. (The `!row` guard of the source cannot fire in the
typed embedding.) -/
def mapThreadRow (row : ThreadRow) : PersistedThread :=
  { threadId := row.id
    agentType := row.agentType
    title := jsOrStr row.title
      (jsOrStr row.lastUserMessage ("Thread " ++ lastSixChars row.id))
    lastUserMessage := row.lastUserMessage
    lastAgentMessage := row.lastAgentMessage
    updatedAt := row.updatedAt }

/-- Comparator for `ORDER BY threads.updatedAt DESC`. -/
def updatedAtDesc (a b : ThreadRow) : Bool :=
  decide (b.updatedAt ≤ a.updatedAt)

/-- `ThreadStore.listThreads`: optionally filter by agent type (JS truthiness
on the filter argument), most recently updated first. -/
def ThreadStoreState.listThreads {ε : Type} (s : ThreadStoreState ε)
    (agentType : Option String) : List PersistedThread :=
  let rows :=
    if jsTruthy agentType then
      s.threads.filter (fun r => some r.agentType == agentType)
    else s.threads
  (rows.mergeSort updatedAtDesc).map mapThreadRow

/-- `ThreadStore.getThread`: first row with the id, mapped, else `null`. -/
def ThreadStoreState.getThread {ε : Type} (s : ThreadStoreState ε)
    (threadId : String) : Option PersistedThread :=
  (s.threads.find? (fun r => r.id == threadId)).map mapThreadRow

/-- Well-formedness of the event table as produced by the embedded writers:
ids strictly increase along the insertion order and stay below the next
autoincrement value. -/
def eventsOrdered {ε : Type} (s : ThreadStoreState ε) : Prop :=
  s.events.Pairwise (fun a b => a.id < b.id) ∧
    ∀ r ∈ s.events, r.id < s.nextEventId

/-! ## ThreadStore lemmas -/

def c9WitnessRow : ThreadRow :=
  { id := "abcdefgh", agentType := "db_agent", title := none,
    lastUserMessage := none, lastAgentMessage := none, lastClientId := none,
    createdAt := "n", updatedAt := "n" }

def c9WitnessStore : ThreadStoreState Nat :=
  { threads := [c9WitnessRow], events := [], nextEventId := 0 }

def MAX_PLOTS_PER_DASHBOARD : Nat := 6

/-- JS `JSON.stringify({})`, the default chart spec. -/
def emptyJsonObject : String := "\x7b\x7d"

structure DashboardPlotRow where
  id : String
  dashboardId : String
  title : String
  chartSpec : String
  chartOption : Option String
  agentType : Option String
  sourceThreadId : Option String
  sourceEventId : Option String
  layoutX : Option Int
  layoutY : Option Int
  layoutW : Option Int
  layoutH : Option Int
  createdAt : String
  updatedAt : String
deriving DecidableEq

structure DashboardStoreState where
  plots : List DashboardPlotRow
deriving DecidableEq

def emptyDashboardStore : DashboardStoreState := { plots := [] }

structure PlotLayout where
  x : Int
  y : Int
  w : Int
  h : Int
deriving DecidableEq

/-- `Partial<DashboardPlot['layout']>`. -/
structure PartialPlotLayout where
  x : Option Int
  y : Option Int
  w : Option Int
  h : Option Int
deriving DecidableEq

/-- `normalizeLayout(layout?, fallback?)`: each coordinate is
`layout?.c ?? fallback?.c ?? default` with defaults x,y = 0 and w,h = 6. -/
def normalizeLayout (layout : Option PartialPlotLayout)
    (fallback : Option PlotLayout) : PlotLayout :=
  { x := (jsCoalesce (layout.bind PartialPlotLayout.x) (fallback.map PlotLayout.x)).getD 0
    y := (jsCoalesce (layout.bind PartialPlotLayout.y) (fallback.map PlotLayout.y)).getD 0
    w := (jsCoalesce (layout.bind PartialPlotLayout.w) (fallback.map PlotLayout.w)).getD 6
    h := (jsCoalesce (layout.bind PartialPlotLayout.h) (fallback.map PlotLayout.h)).getD 6 }

/-- `CreatePlotPayload`; `chartSpec`/`chartOption` carry the serialised
payload objects (`none` for absent/null). -/
structure CreatePlotPayload where
  dashboardId : String
  title : String
  chartSpec : Option String
  chartOption : Option String
  agentType : Option String
  sourceThreadId : Option String
  sourceEventId : Option String
  layout : Option PartialPlotLayout
deriving DecidableEq

/-- `UpdatePlotPayload`; for `chartOption` the source distinguishes
`undefined` (field untouched, outer `none`) from `null`/value (field set,
inner option). -/
structure UpdatePlotPayload where
  dashboardId : Option String
  title : Option String
  chartSpec : Option String
  chartOption : Option (Option String)
  layout : Option PartialPlotLayout
deriving DecidableEq

/-- Live `count(*)` of plots on a dashboard, as `ensureCapacity` queries. -/
def DashboardStoreState.plotCount (s : DashboardStoreState)
    (dashboardId : String) : Nat :=
  (s.plots.filter (fun r => r.dashboardId == dashboardId)).length

/-- The message of the capacity-specific error. -/
def capacityError : String := "Dashboard is at capacity"

/-- `ensureCapacity`: throw the capacity error when the live count has
reached `MAX_PLOTS_PER_DASHBOARD`. -/
def DashboardStoreState.ensureCapacity (s : DashboardStoreState)
    (dashboardId : String) : Except String Unit :=
  if s.plotCount dashboardId ≥ MAX_PLOTS_PER_DASHBOARD then
    Except.error capacityError
  else Except.ok ()

/-- `addPlot`: capacity check immediately before the insert; on success the
new row (with normalised layout and defaulted serialised columns) is
appended. `newId` and `now` stand for `uuidv4()` and the timestamp. -/
def DashboardStoreState.addPlot (s : DashboardStoreState)
    (payload : CreatePlotPayload) (newId now : String) :
    Except String (DashboardStoreState × DashboardPlotRow) :=
  match s.ensureCapacity payload.dashboardId with
  | Except.error e => Except.error e
  | Except.ok _ =>
    let layout := normalizeLayout payload.layout none
    let row : DashboardPlotRow :=
      { id := newId, dashboardId := payload.dashboardId, title := payload.title,
        chartSpec := payload.chartSpec.getD emptyJsonObject,
        chartOption := payload.chartOption,
        agentType := payload.agentType,
        sourceThreadId := payload.sourceThreadId,
        sourceEventId := payload.sourceEventId,
        layoutX := some layout.x, layoutY := some layout.y,
        layoutW := some layout.w, layoutH := some layout.h,
        createdAt := now, updatedAt := now }
    Except.ok ({ plots := s.plots ++ [row] }, row)

/-- `updatePlot`: unknown plot returns `null`; a destination dashboard
different from the current one is capacity-checked before any write; the
row is then patched — layout from `normalizeLayout(updates.layout,
existing layout)`, `title`/`chartSpec` only when supplied,
`chartOption` only when not `undefined` — and the updated row re-read. -/
def DashboardStoreState.updatePlot (s : DashboardStoreState) (plotId : String)
    (updates : UpdatePlotPayload) (now : String) :
    Except String (DashboardStoreState × Option DashboardPlotRow) :=
  match s.plots.find? (fun r => r.id == plotId) with
  | none => Except.ok (s, none)
  | some existing =>
    let targetDashboardId := updates.dashboardId.getD existing.dashboardId
    let capCheck : Except String Unit :=
      if targetDashboardId ≠ existing.dashboardId then
        s.ensureCapacity targetDashboardId
      else Except.ok ()
    match capCheck with
    | Except.error e => Except.error e
    | Except.ok _ =>
      let fallback : PlotLayout :=
        { x := existing.layoutX.getD 0, y := existing.layoutY.getD 0,
          w := existing.layoutW.getD 6, h := existing.layoutH.getD 6 }
      let layout := normalizeLayout updates.layout (some fallback)
      let updateRow : DashboardPlotRow → DashboardPlotRow := fun r =>
        if r.id == plotId then
          let r1 := { r with
            dashboardId := targetDashboardId
            layoutX := some layout.x
            layoutY := some layout.y
            layoutW := some layout.w
            layoutH := some layout.h
            updatedAt := now }
          let r2 := match updates.title with
            | some t => { r1 with title := t }
            | none => r1
          let r3 := match updates.chartSpec with
            | some cs => { r2 with chartSpec := cs }
            | none => r2
          match updates.chartOption with
          | some co => { r3 with chartOption := co }
          | none => r3
        else r
      let s' : DashboardStoreState := { plots := s.plots.map updateRow }
      Except.ok (s', s'.plots.find? (fun r => r.id == plotId))

/-- The `DashboardPlot` view built by `mapPlotRow` (layout nulls default to
x,y = 0 and w,h = 6). -/
structure DashboardPlotView where
  id : String
  dashboardId : String
  title : String
  chartSpec : String
  chartOption : Option String
  agentType : Option String
  sourceThreadId : Option String
  sourceEventId : Option String
  layout : PlotLayout
  createdAt : String
  updatedAt : String
deriving DecidableEq

def mapPlotRow (row : DashboardPlotRow) : DashboardPlotView :=
  { id := row.id, dashboardId := row.dashboardId, title := row.title,
    chartSpec := row.chartSpec, chartOption := row.chartOption,
    agentType := row.agentType, sourceThreadId := row.sourceThreadId,
    sourceEventId := row.sourceEventId,
    layout := { x := row.layoutX.getD 0, y := row.layoutY.getD 0,
                w := row.layoutW.getD 6, h := row.layoutH.getD 6 },
    createdAt := row.createdAt, updatedAt := row.updatedAt }

/-- A sequence of `addPlot` requests, each applied to the store it finds; a
call that throws leaves the store as it was (route handlers report the
error and nothing was inserted). -/
def runAddPlots (s : DashboardStoreState)
    (calls : List (CreatePlotPayload × String × String)) : DashboardStoreState :=
  calls.foldl (fun st c =>
    match st.addPlot c.1 c.2.1 c.2.2 with
    | Except.ok (st', _) => st'
    | Except.error _ => st) s

/-! ## DashboardStore lemmas -/

def c3Payload : CreatePlotPayload :=
  { dashboardId := "d1", title := "p", chartSpec := none, chartOption := none,
    agentType := none, sourceThreadId := none, sourceEventId := none,
    layout := none }

def c3FullStore : DashboardStoreState :=
  runAddPlots emptyDashboardStore
    [(c3Payload, "i1", "n"), (c3Payload, "i2", "n"), (c3Payload, "i3", "n"),
     (c3Payload, "i4", "n"), (c3Payload, "i5", "n"), (c3Payload, "i6", "n")]

def c5RowB : DashboardPlotRow :=
  { id := "pB", dashboardId := "B", title := "tB", chartSpec := "cs",
    chartOption := some "co", agentType := some "db_agent",
    sourceThreadId := none, sourceEventId := none,
    layoutX := some 1, layoutY := some 2, layoutW := some 3, layoutH := some 4,
    createdAt := "n0", updatedAt := "n0" }

def c5Store : DashboardStoreState :=
  { plots := c5RowB :: c3FullStore.plots }

def c5NoneUpdate : UpdatePlotPayload :=
  { dashboardId := none, title := none, chartSpec := none, chartOption := none,
    layout := none }

def c5MoveUpdate : UpdatePlotPayload :=
  { dashboardId := some "d1", title := none, chartSpec := none,
    chartOption := none, layout := none }

/-- `computeSqlHash(sql)`: digest of the (re-)trimmed text. -/
def computeSqlHash (digest : String → String) (sql : String) : String :=
  digest (jsTrim sql)

structure KnowledgeEntryInput where
  agentType : Option String
  threadId : Option String
  messageId : Option String
  sql : Option String
deriving DecidableEq

structure PreparedKnowledgeEntry where
  agentType : Option String
  threadId : Option String
  messageId : Option String
  sqlText : String
  sqlHash : String
deriving DecidableEq

structure KnowledgeRow where
  agentType : Option String
  threadId : Option String
  messageId : Option String
  sqlText : String
  sqlHash : String
  createdAt : String
deriving DecidableEq

structure KnowledgeStoreState where
  rows : List KnowledgeRow
deriving DecidableEq

def emptyKnowledgeStore : KnowledgeStoreState := { rows := [] }

def KnowledgeStoreState.storeHashes (s : KnowledgeStoreState) : List String :=
  s.rows.map (fun r => r.sqlHash)

/-- The `prepared` array: trim each text, hash non-empty ones, drop entries
whose normalised text is empty. -/
def prepareEntries (digest : String → String)
    (entries : List KnowledgeEntryInput) : List PreparedKnowledgeEntry :=
  (entries.map (fun e =>
    let normalizedSql := jsTrim (e.sql.getD "")
    let sqlHash := if normalizedSql == "" then "" else computeSqlHash digest normalizedSql
    ({ agentType := e.agentType, threadId := e.threadId, messageId := e.messageId,
       sqlText := normalizedSql, sqlHash := sqlHash } : PreparedKnowledgeEntry))).filter
    (fun p => !(p.sqlText == ""))

/-- The `dedupMap` pass: keep the first entry for each hash, in order (the
JS `Map` preserves insertion order of first occurrences). -/
def dedupeByHashAux (seen : List String) :
    List PreparedKnowledgeEntry → List PreparedKnowledgeEntry
  | [] => []
  | e :: rest =>
    if e.sqlHash ∈ seen then dedupeByHashAux seen rest
    else e :: dedupeByHashAux (e.sqlHash :: seen) rest

def dedupeByHash (l : List PreparedKnowledgeEntry) : List PreparedKnowledgeEntry :=
  dedupeByHashAux [] l

structure SaveResult where
  saved : Nat
  duplicates : Nat
deriving DecidableEq

/-- `saveKnowledgeEntries`: prepare, dedupe within the call, count hashes
already present as duplicates, insert only net-new hashes, and report
`saved`/`duplicates` (payload-internal duplicates plus already-present
ones). -/
def saveKnowledgeEntries (digest : String → String) (s : KnowledgeStoreState)
    (entries : List KnowledgeEntryInput) (now : String) :
    KnowledgeStoreState × SaveResult :=
  if entries.isEmpty then (s, { saved := 0, duplicates := 0 })
  else
    let prepared := prepareEntries digest entries
    if prepared.isEmpty then (s, { saved := 0, duplicates := 0 })
    else
      let dedupedPrepared := dedupeByHash prepared
      let duplicatesFromPayload := prepared.length - dedupedPrepared.length
      let rowsToInsert := dedupedPrepared.filter
        (fun e => !(s.storeHashes.contains e.sqlHash))
      let duplicates := duplicatesFromPayload +
        (dedupedPrepared.length - rowsToInsert.length)
      ({ rows := s.rows ++ rowsToInsert.map (fun e =>
            { agentType := e.agentType, threadId := e.threadId,
              messageId := e.messageId, sqlText := e.sqlText,
              sqlHash := e.sqlHash, createdAt := now }) },
       { saved := rowsToInsert.length, duplicates := duplicates })

/-! ## KnowledgeStore lemmas -/

/-- The row `saveKnowledgeEntries` inserts for a single net-new entry. -/
def knowledgeRowOf (digest : String → String) (e : KnowledgeEntryInput)
    (now : String) : KnowledgeRow :=
  { agentType := e.agentType
    threadId := e.threadId
    messageId := e.messageId
    sqlText := jsTrim (e.sql.getD "")
    sqlHash := computeSqlHash digest (jsTrim (e.sql.getD ""))
    createdAt := now }

def c7Entry : KnowledgeEntryInput :=
  { agentType := some "db_agent", threadId := none, messageId := none,
    sql := some "select 1" }

def mintThreadId (agentType nowMs randSuffix : String) : String :=
  agentType ++ "_" ++ nowMs ++ "_" ++ randSuffix

/-- `isTemporaryThreadId(id)`: `!!id && id.startsWith('temp_')`. -/
def isTemporaryThreadId : Option String → Bool
  | none => false
  | some id => jsTruthy (some id) && strStartsWith id "temp_"

inductive JobStatus
  | queued
  | processing
  | completed
  | errored
deriving DecidableEq

/-- The in-memory `JobInfo` bookkeeping (times abstracted to a
`endTimeSet` flag since only their presence matters to the claims). -/
structure JobInfo where
  jobId : String
  clientId : String
  agentType : String
  threadId : Option String
  status : JobStatus
  error : Option String
  endTimeSet : Bool
deriving DecidableEq

/-- One structured event of the runtime stream, with the fields
`processChat` inspects: `type`, `thread_id` (for `thread.started`) and the
completed item's type and text. -/
structure AgentStreamEvent where
  type : String
  thread_id : Option String
  itemType : Option String
  itemText : Option String
deriving DecidableEq

/-- The objects `processChat` sends over the push channel and appends to
the durable log (the source persists exactly the objects it relays, so one
type serves as both the SSE frame and the stored payload). -/
inductive ChatEventOut
  | threadInfo (jobId threadId agentType : String)
  | userMessage (jobId agentType threadId message : String)
  | agentEvent (jobId agentType threadId : String) (event : AgentStreamEvent)
  | jobComplete (jobId : String) (threadId : Option String) (durationMs : Int)
  | errorEvent (jobId error : String)
deriving DecidableEq

/-- The `type` discriminator of the serialised object (`thread_info`,
`agent_event` — also for the synthetic user-message wrapper —,
`job_complete`, `error`). -/
def ChatEventOut.jsType : ChatEventOut → String
  | .threadInfo _ _ _ => "thread_info"
  | .userMessage _ _ _ _ => "agent_event"
  | .agentEvent _ _ _ _ => "agent_event"
  | .jobComplete _ _ _ => "job_complete"
  | .errorEvent _ _ => "error"

/-- How step 1 of `processChat` resolved the thread: an active registry
handle or a successful `resumeThread` keep `job.threadId`; `startThread`
(fresh submission or resume failure) mints a new local id and overwrites
`job.threadId`. -/
inductive ThreadResolution
  | reuse
  | resumed
  | resumeFailedStart (mintedId : String)
  | started (mintedId : String)
deriving DecidableEq

/-- Outcome of the resolution step: the updated job and `actualThreadId`
(initialised from `job.threadId || null`). -/
def resolveThread (job : JobInfo) (res : ThreadResolution) :
    JobInfo × Option String :=
  let initial := if jsTruthy job.threadId then job.threadId else none
  match res with
  | .reuse => (job, initial)
  | .resumed => (job, initial)
  | .resumeFailedStart m => ({ job with threadId := some m }, some m)
  | .started m => ({ job with threadId := some m }, some m)

/-- The evolving state of one `processChat` run: the job record, the local
variables of the function, the ThreadStore it writes through, the frames
pushed to the client in order, the count of reconciliation-block
executions and the registry re-keys (`updateThreadId` calls). -/
structure ChatLoopState where
  job : JobInfo
  actualThreadId : Option String
  threadMetadataPersisted : Bool
  userEventPersisted : Bool
  store : ThreadStoreState ChatEventOut
  frames : List ChatEventOut
  reconciliations : Nat
  rekeys : List (String × String)
deriving DecidableEq

/-- `persistUserMessageEvent`: build the synthetic user-message wrapper,
relay it, and append it durably. -/
def persistUserMessageEvent (threadId message now : String)
    (st : ChatLoopState) : ChatLoopState :=
  let userEvent := ChatEventOut.userMessage st.job.jobId st.job.agentType
    threadId message
  { st with
    frames := st.frames ++ [userEvent]
    store := st.store.appendEvent threadId st.job.jobId userEvent.jsType
      userEvent now }

/-- `ensureUserEventPersisted`: persist the user-message event once, only
after metadata is persisted and only for a truthy, non-temporary
`actualThreadId`. -/
def ensureUserEventPersisted (message now : String)
    (st : ChatLoopState) : ChatLoopState :=
  if !st.userEventPersisted && st.threadMetadataPersisted &&
      jsTruthy st.actualThreadId &&
      !(isTemporaryThreadId st.actualThreadId) then
    let st1 := persistUserMessageEvent (st.actualThreadId.getD "") message now st
    { st1 with userEventPersisted := true }
  else st

/-- The eager-persistence phase (lines 562-582 of `src/server/src/index.ts`):
when the resolved id passes `actualThreadId && !isTemporaryThreadId(...)`,
upsert metadata (title = first 120 chars of the message), mark metadata
persisted, emit `thread_info` and flush the user-message event. -/
def eagerPersistPhase (message now : String) (st : ChatLoopState) :
    ChatLoopState :=
  if jsTruthy st.actualThreadId && !(isTemporaryThreadId st.actualThreadId) then
    let tid := st.actualThreadId.getD ""
    let st1 := { st with
      store := st.store.upsertThread
        { id := tid
          agentType := st.job.agentType
          title := some (jsSliceTo message 120)
          lastUserMessage := some message
          lastAgentMessage := none
          lastClientId := some st.job.clientId } now
      threadMetadataPersisted := true }
    let st2 := { st1 with
      frames := st1.frames ++
        [ChatEventOut.threadInfo st.job.jobId tid st.job.agentType] }
    ensureUserEventPersisted message now st2
  else st

/-- One iteration of the stream loop (lines 588-679): reconcile canonical
identity at most once, skip events while the id is unknown, otherwise relay
the wrapped event and — once metadata is persisted — append it durably and
refresh `lastAgentMessage` on a completed agent message. -/
def stepChatEvent (message now : String) (st : ChatLoopState)
    (e : AgentStreamEvent) : ChatLoopState :=
  let st :=
    if !st.threadMetadataPersisted && e.type == "thread.started" &&
        jsTruthy e.thread_id then
      let tid := e.thread_id.getD ""
      let st :=
        if !(st.actualThreadId == some tid) then
          let rekeys := match st.actualThreadId with
            | some old => if old == "" then st.rekeys else st.rekeys ++ [(old, tid)]
            | none => st.rekeys
          { st with
            actualThreadId := some tid
            job := { st.job with threadId := some tid }
            rekeys := rekeys }
        else st
      let st1 := { st with
        store := st.store.upsertThread
          { id := tid
            agentType := st.job.agentType
            title := some (jsSliceTo message 120)
            lastUserMessage := some message
            lastAgentMessage := none
            lastClientId := some st.job.clientId } now
        threadMetadataPersisted := true }
      let st2 := { st1 with
        frames := st1.frames ++
          [ChatEventOut.threadInfo st1.job.jobId tid st1.job.agentType]
        reconciliations := st1.reconciliations + 1 }
      ensureUserEventPersisted message now st2
    else st
  if jsTruthy st.actualThreadId = false then st
  else
    let tid := st.actualThreadId.getD ""
    let transformed := ChatEventOut.agentEvent st.job.jobId st.job.agentType tid e
    let st := { st with frames := st.frames ++ [transformed] }
    if st.threadMetadataPersisted then
      let st1 := { st with
        store := st.store.appendEvent tid st.job.jobId transformed.jsType
          transformed now }
      if e.type == "item.completed" && e.itemType == some "agent_message" &&
          jsTruthy e.itemText then
        { st1 with
          store := st1.store.updateThreadMeta tid
            { title := none
              lastUserMessage := none
              lastAgentMessage := e.itemText
              lastClientId := none } now }
      else st1
    else st

/-- Stream exhaustion (lines 681-705): mark the job completed, relay the
completion event, and append it when metadata was persisted and the id is
truthy. -/
def completeChat (durationMs : Int) (now : String) (st : ChatLoopState) :
    ChatLoopState :=
  let job := { st.job with status := JobStatus.completed, endTimeSet := true }
  let completionEvent := ChatEventOut.jobComplete job.jobId st.actualThreadId
    durationMs
  let st := { st with job := job, frames := st.frames ++ [completionEvent] }
  if st.threadMetadataPersisted && jsTruthy st.actualThreadId then
    { st with
      store := st.store.appendEvent (st.actualThreadId.getD "") job.jobId
        completionEvent.jsType completionEvent now }
  else st

/-- The catch block (lines 713-746): mark the job errored with the message
and end time, relay the error event, and append it exactly when
`job.threadId && !isTemporaryThreadId(job.threadId)`. -/
def handleChatError (errMsg now : String) (st : ChatLoopState) :
    ChatLoopState :=
  let job := { st.job with
    status := JobStatus.errored
    endTimeSet := true
    error := some errMsg }
  let errorEvent := ChatEventOut.errorEvent job.jobId errMsg
  let st := { st with job := job, frames := st.frames ++ [errorEvent] }
  if jsTruthy st.job.threadId && !(isTemporaryThreadId st.job.threadId) then
    { st with
      store := st.store.appendEvent (st.job.threadId.getD "") st.job.jobId
        errorEvent.jsType errorEvent now }
  else st

/-- A whole `processChat` run: resolution, eager persistence, the stream
loop over `events`, then either completion or — when the stream throws
after the given prefix (`streamError`) — the catch block. Suspended
persistence failures are swallowed by `safeThreadOperation`, never thrown,
so the only exception source is the stream itself. -/
def runChat (job0 : JobInfo) (res : ThreadResolution) (message : String)
    (events : List AgentStreamEvent) (streamError : Option String)
    (durationMs : Int) (now : String)
    (store0 : ThreadStoreState ChatEventOut) : ChatLoopState :=
  let job1 := { job0 with status := JobStatus.processing }
  let resolved := resolveThread job1 res
  let st0 : ChatLoopState :=
    { job := resolved.1
      actualThreadId := resolved.2
      threadMetadataPersisted := false
      userEventPersisted := false
      store := store0
      frames := []
      reconciliations := 0
      rekeys := [] }
  let st1 := eagerPersistPhase message now st0
  let st2 := events.foldl (stepChatEvent message now) st1
  match streamError with
  | none => completeChat durationMs now st2
  | some msg => handleChatError msg now st2

/-- Number of `thread_info` frames among the pushed frames. -/
def countThreadInfo (frames : List ChatEventOut) : Nat :=
  (frames.filter (fun f => match f with
    | ChatEventOut.threadInfo _ _ _ => true
    | _ => false)).length

/-- Number of durable user-message events a store holds for a job. -/
def countPersistedUserMessages (s : ThreadStoreState ChatEventOut)
    (jobId : String) : Nat :=
  (s.events.filter (fun r => r.jobId == jobId &&
    match r.eventPayload with
    | ChatEventOut.userMessage _ _ _ _ => true
    | _ => false)).length

/-! ## processChat lemmas -/

/-- Predicate selecting durable user-message rows of a job. -/
def isUserMessageRow (jobId : String) (r : ThreadEventRow ChatEventOut) : Bool :=
  r.jobId == jobId &&
    match r.eventPayload with
    | ChatEventOut.userMessage _ _ _ _ => true
    | _ => false

def c2Job : JobInfo :=
  { jobId := "job-2", clientId := "c1", agentType := "chit_chat",
    threadId := none, status := JobStatus.queued, error := none,
    endTimeSet := false }

def c2FirstEvent : AgentStreamEvent :=
  { type := "thread.started", thread_id := some "run_42", itemType := none,
    itemText := none }

def c1Job : JobInfo :=
  { jobId := "job-1", clientId := "c1", agentType := "chit_chat",
    threadId := none, status := JobStatus.queued, error := none,
    endTimeSet := false }

/-! ## Theorems -/

theorem find?_map_of_keyFixed {α : Type} (p : α → Bool) (g : α → α)
    (hpres : ∀ a, p (g a) = p a) :
    ∀ l : List α, (l.map g).find? p = (l.find? p).map g := by
  intro l
  induction l with
  | nil => simp
  | cons a l ih =>
    simp only [List.map_cons, List.find?_cons, hpres a]
    cases h : p a
    · simpa using ih
    · simp

theorem pairwise_lt_le {ε : Type} {l : List (ThreadEventRow ε)}
    (h : l.Pairwise (fun a b => a.id < b.id)) :
    l.Pairwise (fun a b => eventIdLe a b = true) := by
  refine h.imp (fun hab => ?_)
  simp only [eventIdLe, decide_eq_true_eq]
  omega

theorem getThreadEvents_of_ordered {ε : Type} (s : ThreadStoreState ε)
    (h : eventsOrdered s) (t : String) :
    s.getThreadEvents t =
      (s.events.filter (fun r => r.threadId == t)).map (fun r => r.eventPayload) := by
  unfold ThreadStoreState.getThreadEvents
  rw [List.mergeSort_of_sorted (pairwise_lt_le (h.1.filter _))]

theorem appendEvent_events_of_ne {ε : Type} (s : ThreadStoreState ε)
    {t : String} (j ty : String) (e : ε) (n : String) (ht : ¬ (t == "") = true) :
    (s.appendEvent t j ty e n).events
        = s.events ++ [⟨s.nextEventId, t, j, ty, e, n⟩]
      ∧ (s.appendEvent t j ty e n).nextEventId = s.nextEventId + 1 := by
  unfold ThreadStoreState.appendEvent
  rw [if_neg ht]
  exact ⟨rfl, rfl⟩

theorem appendEvent_ordered {ε : Type} (s : ThreadStoreState ε)
    (h : eventsOrdered s) (t j ty n : String) (e : ε) :
    eventsOrdered (s.appendEvent t j ty e n) := by
  by_cases ht : (t == "") = true
  · unfold ThreadStoreState.appendEvent
    simpa [ht] using h
  · obtain ⟨hev, hid⟩ := appendEvent_events_of_ne s j ty e n ht
    constructor
    · rw [hev, List.pairwise_append]
      refine ⟨h.1, by simp, ?_⟩
      intro a ha b hb
      have := h.2 a ha
      simp only [List.mem_singleton] at hb
      subst hb
      simpa using this
    · intro r hr
      rw [hev] at hr
      rw [hid]
      simp only [List.mem_append, List.mem_singleton] at hr
      rcases hr with hr | hr
      · have := h.2 r hr
        omega
      · subst hr
        simp

/-- C8: appending `e1` then `e2` to a thread makes `getThreadEvents` return
`e1` before `e2` (full ordered replay), and every mutating ThreadStore
operation only ever extends the event table, never rewriting or deleting
stored rows. -/
theorem appendEvent_ordering_and_append_only :
    (∀ (ε : Type) (s : ThreadStoreState ε), eventsOrdered s →
       ∀ (t j1 j2 ty1 ty2 n1 n2 : String) (e1 e2 : ε), t ≠ "" →
       ((s.appendEvent t j1 ty1 e1 n1).appendEvent t j2 ty2 e2 n2).getThreadEvents t
         = s.getThreadEvents t ++ [e1, e2])
  ∧ (∀ (ε : Type) (s : ThreadStoreState ε) (p : ThreadUpsertPayload) (now : String),
       ∃ tail, (s.upsertThread p now).events = s.events ++ tail)
  ∧ (∀ (ε : Type) (s : ThreadStoreState ε) (tid : String) (u : ThreadMetaUpdates)
       (now : String), ∃ tail, (s.updateThreadMeta tid u now).events = s.events ++ tail)
  ∧ (∀ (ε : Type) (s : ThreadStoreState ε) (t j ty : String) (e : ε) (n : String),
       ∃ tail, (s.appendEvent t j ty e n).events = s.events ++ tail) := by
  refine ⟨?_, ?_, ?_, ?_⟩
  · intro ε s hord t j1 j2 ty1 ty2 n1 n2 e1 e2 ht
    have htb : ¬ (t == "") = true := by simpa using ht
    have h1 := appendEvent_ordered s hord t j1 ty1 n1 e1
    have h2 := appendEvent_ordered _ h1 t j2 ty2 n2 e2
    obtain ⟨hev1, hid1⟩ := appendEvent_events_of_ne s j1 ty1 e1 n1 htb
    obtain ⟨hev2, hid2⟩ := appendEvent_events_of_ne _ j2 ty2 e2 n2 htb
    rw [getThreadEvents_of_ordered _ h2, getThreadEvents_of_ordered _ hord]
    rw [hev2, hev1, hid1]
    simp [List.filter_append]
  · intro ε s p now
    refine ⟨[], ?_⟩
    unfold ThreadStoreState.upsertThread
    cases s.threads.find? (fun r => r.id == p.id) <;> simp
  · intro ε s tid u now
    refine ⟨[], ?_⟩
    unfold ThreadStoreState.updateThreadMeta
    by_cases h1 : (tid == "") = true
    · simp [h1]
    · by_cases h2 : (u.title.isNone && u.lastUserMessage.isNone &&
          u.lastAgentMessage.isNone && u.lastClientId.isNone) = true
      · rw [if_neg h1, if_pos h2, List.append_nil]
      · rw [if_neg h1, if_neg h2, List.append_nil]
  · intro ε s t j ty e n
    by_cases h1 : (t == "") = true
    · refine ⟨[], ?_⟩
      unfold ThreadStoreState.appendEvent
      simp [h1]
    · exact ⟨_, (appendEvent_events_of_ne s j ty e n h1).1⟩

/-- Witness for C8 at a concrete store and events. -/
theorem appendEvent_ordering_witness :
    (((emptyThreadStore Nat).appendEvent "t1" "j1" "agent_event" 7 "n1").appendEvent
        "t1" "j2" "agent_event" 8 "n2").getThreadEvents "t1"
      = (emptyThreadStore Nat).getThreadEvents "t1" ++ [7, 8] := by
  exact appendEvent_ordering_and_append_only.1 Nat (emptyThreadStore Nat)
    (by constructor <;> simp [emptyThreadStore])
    "t1" "j1" "j2" "agent_event" "agent_event" "n1" "n2" 7 8 (by decide)

/-- C10: `appendEvent` with an empty thread id leaves the store untouched
(the source logs a warning and returns without inserting). -/
theorem appendEvent_empty_threadId_noop :
    ∀ (ε : Type) (s : ThreadStoreState ε) (jobId eventType : String) (e : ε)
      (now : String), s.appendEvent "" jobId eventType e now = s := by
  intro ε s jobId eventType e now
  unfold ThreadStoreState.appendEvent
  simp

theorem thread_fallback_title_ne_empty (x : String) : ("Thread " ++ x) ≠ "" := by
  intro h
  have h2 := congrArg String.length h
  rw [String.length_append] at h2
  have h3 : ("Thread ").length = 7 := rfl
  have h4 : ("" : String).length = 0 := rfl
  omega

theorem jsOrStr_some_ne (t b : String) (h : t ≠ "") : jsOrStr (some t) b = t := by
  simp [jsOrStr, h]

theorem jsOrStr_of_falsy (a : Option String) (b : String) (h : jsTruthy a = false) :
    jsOrStr a b = b := by
  cases a with
  | none => rfl
  | some s =>
    simp only [jsTruthy, Bool.not_eq_false'] at h
    simp [jsOrStr, h]

theorem jsTruthy_iff (a : Option String) :
    jsTruthy a = true ↔ ∃ t, a = some t ∧ t ≠ "" := by
  cases a with
  | none => simp [jsTruthy]
  | some s => simp [jsTruthy]

theorem mapThreadRow_title_ne_empty (row : ThreadRow) :
    (mapThreadRow row).title ≠ "" := by
  show jsOrStr row.title (jsOrStr row.lastUserMessage ("Thread " ++ lastSixChars row.id)) ≠ ""
  by_cases h1 : jsTruthy row.title = true
  · obtain ⟨t, ht, hne⟩ := (jsTruthy_iff row.title).mp h1
    rw [ht, jsOrStr_some_ne _ _ hne]
    exact hne
  · rw [jsOrStr_of_falsy _ _ (Bool.not_eq_true _ ▸ h1)]
    by_cases h2 : jsTruthy row.lastUserMessage = true
    · obtain ⟨m, hm, hne⟩ := (jsTruthy_iff row.lastUserMessage).mp h2
      rw [hm, jsOrStr_some_ne _ _ hne]
      exact hne
    · rw [jsOrStr_of_falsy _ _ (Bool.not_eq_true _ ▸ h2)]
      exact thread_fallback_title_ne_empty _

/-- C9: every thread view produced by `getThread`/`listThreads` carries a
non-empty title, equal to the stored title when that is non-null and
non-empty, else the stored last user message when that is non-null and
non-empty, else `"Thread "` followed by the last six characters of the id. -/
theorem thread_title_nonempty_fallback :
    (∀ row : ThreadRow,
        (mapThreadRow row).title ≠ ""
      ∧ (∀ t, row.title = some t → t ≠ "" → (mapThreadRow row).title = t)
      ∧ (jsTruthy row.title = false → ∀ m, row.lastUserMessage = some m → m ≠ "" →
           (mapThreadRow row).title = m)
      ∧ (jsTruthy row.title = false → jsTruthy row.lastUserMessage = false →
           (mapThreadRow row).title = "Thread " ++ lastSixChars row.id))
  ∧ (∀ (ε : Type) (s : ThreadStoreState ε) (tid : String) (p : PersistedThread),
       s.getThread tid = some p → p.title ≠ "")
  ∧ (∀ (ε : Type) (s : ThreadStoreState ε) (f : Option String) (p : PersistedThread),
       p ∈ s.listThreads f → p.title ≠ "") := by
  refine ⟨?_, ?_, ?_⟩
  · intro row
    refine ⟨mapThreadRow_title_ne_empty row, ?_, ?_, ?_⟩
    · intro t htit hne
      show jsOrStr row.title _ = t
      rw [htit, jsOrStr_some_ne _ _ hne]
    · intro htit m hm hne
      show jsOrStr row.title (jsOrStr row.lastUserMessage _) = m
      rw [jsOrStr_of_falsy _ _ htit, hm, jsOrStr_some_ne _ _ hne]
    · intro htit hm
      show jsOrStr row.title (jsOrStr row.lastUserMessage _) = _
      rw [jsOrStr_of_falsy _ _ htit, jsOrStr_of_falsy _ _ hm]
  · intro ε s tid p hp
    unfold ThreadStoreState.getThread at hp
    rcases Option.map_eq_some'.mp hp with ⟨row, _, hrow⟩
    rw [← hrow]
    exact mapThreadRow_title_ne_empty row
  · intro ε s f p hp
    unfold ThreadStoreState.listThreads at hp
    rcases List.mem_map.mp hp with ⟨row, _, hrow⟩
    rw [← hrow]
    exact mapThreadRow_title_ne_empty row

/-- Witness for C9 on a concrete store holding one titleless row. -/
theorem thread_title_nonempty_witness :
    ∀ p ∈ c9WitnessStore.listThreads none, p.title ≠ "" := by
  intro p hp
  exact thread_title_nonempty_fallback.2.2 Nat c9WitnessStore none p hp

theorem upsertThread_found {ε : Type} (s : ThreadStoreState ε)
    (p : ThreadUpsertPayload) (now : String) (row : ThreadRow)
    (hfind : s.threads.find? (fun r => r.id == p.id) = some row) :
    (s.upsertThread p now).threads.find? (fun r => r.id == p.id) = some
      { row with
        agentType := p.agentType
        title := match (if jsTruthy row.title then row.title else p.title) with
          | some t => some t
          | none => row.title
        lastUserMessage := jsCoalesce p.lastUserMessage row.lastUserMessage
        lastAgentMessage := jsCoalesce p.lastAgentMessage row.lastAgentMessage
        lastClientId := jsCoalesce p.lastClientId row.lastClientId
        updatedAt := now } := by
  have hrowid : (row.id == p.id) = true := by
    simpa using List.find?_some hfind
  unfold ThreadStoreState.upsertThread
  simp only [hfind]
  rw [find?_map_of_keyFixed]
  · rw [hfind]
    rw [Option.map_some']
    rw [if_pos hrowid]
  · intro a
    by_cases h : (a.id == p.id) = true <;> simp [h]

/-- C6: on a fresh id, upserting title "A" then title "B" leaves the stored
title "A" (first write wins), while agentType and the other supplied fields
take the values of the second upsert. -/
theorem upsertThread_title_sticky :
    ∀ (ε : Type) (s : ThreadStoreState ε) (id aty1 aty2 n1 n2 : String)
      (lum1 lam1 lcid1 : Option String) (lum2 lam2 lcid2 : String),
      s.threads.find? (fun r => r.id == id) = none →
      ∃ r, ((s.upsertThread
              { id := id, agentType := aty1, title := some "A",
                lastUserMessage := lum1, lastAgentMessage := lam1,
                lastClientId := lcid1 } n1).upsertThread
              { id := id, agentType := aty2, title := some "B",
                lastUserMessage := some lum2, lastAgentMessage := some lam2,
                lastClientId := some lcid2 } n2).threads.find?
              (fun rr => rr.id == id) = some r
        ∧ r.title = some "A" ∧ r.agentType = aty2 ∧ r.lastUserMessage = some lum2
        ∧ r.lastAgentMessage = some lam2 ∧ r.lastClientId = some lcid2
        ∧ r.updatedAt = n2 := by
  intro ε s id aty1 aty2 n1 n2 lum1 lam1 lcid1 lum2 lam2 lcid2 hnone
  have h1 : (s.upsertThread
      { id := id, agentType := aty1, title := some "A", lastUserMessage := lum1,
        lastAgentMessage := lam1, lastClientId := lcid1 } n1).threads
      = s.threads ++
        [{ id := id, agentType := aty1, title := some "A", lastUserMessage := lum1,
           lastAgentMessage := lam1, lastClientId := lcid1,
           createdAt := n1, updatedAt := n1 }] := by
    simp only [ThreadStoreState.upsertThread, hnone]
  have hfind2 : (s.upsertThread
      { id := id, agentType := aty1, title := some "A", lastUserMessage := lum1,
        lastAgentMessage := lam1, lastClientId := lcid1 } n1).threads.find?
      (fun r => r.id == id) = some
        { id := id, agentType := aty1, title := some "A", lastUserMessage := lum1,
          lastAgentMessage := lam1, lastClientId := lcid1,
          createdAt := n1, updatedAt := n1 } := by
    rw [h1, List.find?_append, hnone]
    simp
  have h2 := upsertThread_found _
    { id := id, agentType := aty2, title := some "B", lastUserMessage := some lum2,
      lastAgentMessage := some lam2, lastClientId := some lcid2 } n2 _ hfind2
  refine ⟨_, h2, ?_, ?_, ?_, ?_, ?_, ?_⟩ <;> simp [jsTruthy, jsCoalesce]

/-- Witness for C6 on the empty store. -/
theorem upsertThread_title_sticky_witness :
    ∃ r, (((emptyThreadStore Nat).upsertThread
            { id := "th1", agentType := "chit_chat", title := some "A",
              lastUserMessage := some "hi", lastAgentMessage := none,
              lastClientId := some "c1" } "n1").upsertThread
            { id := "th1", agentType := "chit_chat", title := some "B",
              lastUserMessage := some "ho", lastAgentMessage := some "yo",
              lastClientId := some "c2" } "n2").threads.find?
            (fun rr => rr.id == "th1") = some r
      ∧ r.title = some "A" ∧ r.agentType = "chit_chat"
      ∧ r.lastUserMessage = some "ho" ∧ r.lastAgentMessage = some "yo"
      ∧ r.lastClientId = some "c2" ∧ r.updatedAt = "n2" :=
  upsertThread_title_sticky Nat (emptyThreadStore Nat) "th1" "chit_chat" "chit_chat"
    "n1" "n2" (some "hi") none (some "c1") "ho" "yo" "c2" (by rfl)

/-! ## DashboardStore (src/server/src/lib/DashboardStore.ts)

Only the plot table matters to the embedded operations: `ensureCapacity`
counts rows of `dashboard_plots` by dashboard id without consulting the
`dashboards` table, so the latter is not modelled. `chartSpec`/`chartOption`
columns hold the `JSON.stringify` image of the payload objects, modelled as
the serialised strings themselves. -/

theorem plotCount_append (l : List DashboardPlotRow) (row : DashboardPlotRow)
    (d : String) :
    DashboardStoreState.plotCount { plots := l ++ [row] } d
      = DashboardStoreState.plotCount { plots := l } d
          + (if (row.dashboardId == d) = true then 1 else 0) := by
  unfold DashboardStoreState.plotCount
  rw [List.filter_append]
  by_cases h : (row.dashboardId == d) = true <;> simp [h]

theorem addPlot_at_capacity (s : DashboardStoreState) (payload : CreatePlotPayload)
    (newId now : String)
    (h : s.plotCount payload.dashboardId ≥ MAX_PLOTS_PER_DASHBOARD) :
    s.addPlot payload newId now = Except.error capacityError := by
  unfold DashboardStoreState.addPlot DashboardStoreState.ensureCapacity
  rw [if_pos h]

theorem addPlot_under_capacity (s : DashboardStoreState) (payload : CreatePlotPayload)
    (newId now : String)
    (h : ¬ s.plotCount payload.dashboardId ≥ MAX_PLOTS_PER_DASHBOARD) :
    ∃ row st', s.addPlot payload newId now = Except.ok (st', row)
      ∧ st'.plots = s.plots ++ [row] ∧ row.dashboardId = payload.dashboardId := by
  unfold DashboardStoreState.addPlot DashboardStoreState.ensureCapacity
  rw [if_neg h]
  exact ⟨_, _, rfl, rfl, rfl⟩

theorem addPlot_step_le (s : DashboardStoreState)
    (c : CreatePlotPayload × String × String)
    (h : ∀ d, s.plotCount d ≤ MAX_PLOTS_PER_DASHBOARD) :
    ∀ d, (match s.addPlot c.1 c.2.1 c.2.2 with
      | Except.ok (st', _) => st'
      | Except.error _ => s).plotCount d ≤ MAX_PLOTS_PER_DASHBOARD := by
  intro d
  by_cases hc : s.plotCount c.1.dashboardId ≥ MAX_PLOTS_PER_DASHBOARD
  · rw [addPlot_at_capacity s c.1 c.2.1 c.2.2 hc]
    exact h d
  · obtain ⟨row, st', hok, hplots, hdash⟩ := addPlot_under_capacity s c.1 c.2.1 c.2.2 hc
    rw [hok]
    show st'.plotCount d ≤ MAX_PLOTS_PER_DASHBOARD
    have : st' = { plots := s.plots ++ [row] } := by
      cases st'
      simpa using hplots
    rw [this, plotCount_append]
    by_cases hd : (row.dashboardId == d) = true
    · have hdd : d = c.1.dashboardId := by
        have h2 : row.dashboardId = d := by simpa using hd
        rw [← h2, hdash]
      rw [if_pos hd]
      have hlt := lt_of_not_ge hc
      have : DashboardStoreState.plotCount { plots := s.plots } d
          = s.plotCount d := rfl
      rw [this, hdd]
      omega
    · rw [if_neg hd]
      have : DashboardStoreState.plotCount { plots := s.plots } d
          = s.plotCount d := rfl
      rw [this]
      have := h d
      omega

/-- C3: the per-dashboard plot count never exceeds
`MAX_PLOTS_PER_DASHBOARD` (6) across any sequence of `addPlot` calls, and
an `addPlot` against a dashboard already holding 6 plots fails with the
capacity-specific error and inserts nothing. -/
theorem addPlot_capacity_invariant :
    (∀ (s : DashboardStoreState) (calls : List (CreatePlotPayload × String × String)),
       (∀ d, s.plotCount d ≤ MAX_PLOTS_PER_DASHBOARD) →
       ∀ d, (runAddPlots s calls).plotCount d ≤ MAX_PLOTS_PER_DASHBOARD)
  ∧ (∀ (s : DashboardStoreState) (payload : CreatePlotPayload) (newId now : String),
       s.plotCount payload.dashboardId = MAX_PLOTS_PER_DASHBOARD →
       s.addPlot payload newId now = Except.error capacityError
         ∧ runAddPlots s [(payload, newId, now)] = s) := by
  constructor
  · intro s calls
    induction calls generalizing s with
    | nil => intro h d; exact h d
    | cons c rest ih =>
      intro h d
      have hstep := addPlot_step_le s c h
      unfold runAddPlots at ih ⊢
      rw [List.foldl_cons]
      exact ih _ hstep d
  · intro s payload newId now h
    have herr := addPlot_at_capacity s payload newId now (le_of_eq h.symm)
    refine ⟨herr, ?_⟩
    unfold runAddPlots
    rw [List.foldl_cons, herr]
    rfl

/-- Witness for C3: the empty store stays within capacity after six inserts,
and the seventh on the same dashboard fails with the capacity error. -/
theorem addPlot_capacity_invariant_witness :
    (∀ d, c3FullStore.plotCount d ≤ MAX_PLOTS_PER_DASHBOARD)
  ∧ c3FullStore.addPlot c3Payload "i7" "n" = Except.error capacityError := by
  constructor
  · intro d
    exact addPlot_capacity_invariant.1 emptyDashboardStore _
      (by intro d'; simp [DashboardStoreState.plotCount, emptyDashboardStore]) d
  · exact (addPlot_capacity_invariant.2 c3FullStore c3Payload "i7" "n" (by decide)).1

theorem updateRow_keeps_id (plotId : String) (u : UpdatePlotPayload)
    (target now : String) (layout : PlotLayout) (r : DashboardPlotRow) :
    ((if r.id == plotId then
        let r1 := { r with
          dashboardId := target
          layoutX := some layout.x
          layoutY := some layout.y
          layoutW := some layout.w
          layoutH := some layout.h
          updatedAt := now }
        let r2 := match u.title with
          | some t => { r1 with title := t }
          | none => r1
        let r3 := match u.chartSpec with
          | some cs => { r2 with chartSpec := cs }
          | none => r2
        match u.chartOption with
        | some co => { r3 with chartOption := co }
        | none => r3
      else r) : DashboardPlotRow).id = r.id := by
  by_cases h : (r.id == plotId) = true
  · rw [if_pos h]
    cases u.title <;> cases u.chartSpec <;> cases u.chartOption <;> rfl
  · rw [if_neg h]

theorem updatePlot_merge {s : DashboardStoreState} {plotId : String}
    {u : UpdatePlotPayload} {now : String} {existing : DashboardPlotRow}
    (hfind : s.plots.find? (fun r => r.id == plotId) = some existing)
    (hcap : u.dashboardId.getD existing.dashboardId = existing.dashboardId ∨
      s.plotCount (u.dashboardId.getD existing.dashboardId) < MAX_PLOTS_PER_DASHBOARD) :
    ∃ s' r', s.updatePlot plotId u now = Except.ok (s', some r')
      ∧ r'.id = existing.id
      ∧ (u.title = none → r'.title = existing.title)
      ∧ (u.chartSpec = none → r'.chartSpec = existing.chartSpec)
      ∧ (u.chartOption = none → r'.chartOption = existing.chartOption)
      ∧ (u.layout = none → (mapPlotRow r').layout = (mapPlotRow existing).layout)
      ∧ r'.dashboardId = u.dashboardId.getD existing.dashboardId
      ∧ r'.updatedAt = now := by
  have hrid : (existing.id == plotId) = true := by
    simpa using List.find?_some hfind
  have hcapok : (if u.dashboardId.getD existing.dashboardId ≠ existing.dashboardId then
      s.ensureCapacity (u.dashboardId.getD existing.dashboardId)
    else Except.ok ()) = Except.ok () := by
    by_cases hmove : u.dashboardId.getD existing.dashboardId ≠ existing.dashboardId
    · rw [if_pos hmove]
      rcases hcap with hcap | hcap
      · exact absurd hcap hmove
      · unfold DashboardStoreState.ensureCapacity
        rw [if_neg (by omega)]
    · rw [if_neg hmove]
  simp only [DashboardStoreState.updatePlot, hfind, hcapok]
  rw [find?_map_of_keyFixed]
  · rw [hfind, Option.map_some']
    refine ⟨_, _, rfl, ?_⟩
    rw [if_pos hrid]
    rcases ht : u.title with _ | t <;> rcases hcs : u.chartSpec with _ | cs <;>
      rcases hco : u.chartOption with _ | co <;> rcases hl : u.layout with _ | pl <;>
      simp [mapPlotRow, normalizeLayout, jsCoalesce]
  · intro a
    by_cases h : (a.id == plotId) = true
    · rw [if_pos h]
      cases u.title <;> cases u.chartSpec <;> cases u.chartOption <;> simp [h]
    · rw [if_neg h]

theorem updatePlot_move_to_full {s : DashboardStoreState} {plotId : String}
    {u : UpdatePlotPayload} {now : String} {existing : DashboardPlotRow}
    {dest : String}
    (hfind : s.plots.find? (fun r => r.id == plotId) = some existing)
    (hdest : u.dashboardId = some dest)
    (hne : dest ≠ existing.dashboardId)
    (hcap : s.plotCount dest ≥ MAX_PLOTS_PER_DASHBOARD) :
    s.updatePlot plotId u now = Except.error capacityError := by
  simp only [DashboardStoreState.updatePlot, hfind, hdest, Option.getD_some]
  rw [if_pos hne]
  unfold DashboardStoreState.ensureCapacity
  rw [if_pos hcap]

/-- C5: `updatePlot` capacity-checks only the destination dashboard and only
when it differs from the plot's current one: a move into a full destination
fails with the capacity error before any write (the store value is not
updated, so the plot's row is unchanged in its original dashboard); when the
destination equals the current dashboard the call cannot fail on capacity;
and on success every field absent from the update payload keeps its prior
value. -/
theorem updatePlot_capacity_and_patch :
    (∀ (s : DashboardStoreState) (plotId : String) (u : UpdatePlotPayload)
       (now : String) (existing : DashboardPlotRow) (dest : String),
       s.plots.find? (fun r => r.id == plotId) = some existing →
       u.dashboardId = some dest → dest ≠ existing.dashboardId →
       s.plotCount dest ≥ MAX_PLOTS_PER_DASHBOARD →
       s.updatePlot plotId u now = Except.error capacityError)
  ∧ (∀ (s : DashboardStoreState) (plotId : String) (u : UpdatePlotPayload)
       (now : String) (existing : DashboardPlotRow),
       s.plots.find? (fun r => r.id == plotId) = some existing →
       u.dashboardId.getD existing.dashboardId = existing.dashboardId →
       ∃ out, s.updatePlot plotId u now = Except.ok out)
  ∧ (∀ (s : DashboardStoreState) (plotId : String) (u : UpdatePlotPayload)
       (now : String) (existing : DashboardPlotRow),
       s.plots.find? (fun r => r.id == plotId) = some existing →
       (u.dashboardId.getD existing.dashboardId = existing.dashboardId ∨
         s.plotCount (u.dashboardId.getD existing.dashboardId) < MAX_PLOTS_PER_DASHBOARD) →
       ∃ s' r', s.updatePlot plotId u now = Except.ok (s', some r')
         ∧ r'.id = existing.id
         ∧ (u.title = none → r'.title = existing.title)
         ∧ (u.chartSpec = none → r'.chartSpec = existing.chartSpec)
         ∧ (u.chartOption = none → r'.chartOption = existing.chartOption)
         ∧ (u.layout = none → (mapPlotRow r').layout = (mapPlotRow existing).layout)
         ∧ r'.dashboardId = u.dashboardId.getD existing.dashboardId
         ∧ r'.updatedAt = now) := by
  refine ⟨?_, ?_, ?_⟩
  · intro s plotId u now existing dest hfind hdest hne hcap
    exact updatePlot_move_to_full hfind hdest hne hcap
  · intro s plotId u now existing hfind htarget
    obtain ⟨s', r', hok, _⟩ := updatePlot_merge hfind (Or.inl htarget)
    exact ⟨(s', some r'), hok⟩
  · intro s plotId u now existing hfind hcap
    exact updatePlot_merge hfind hcap

/-- Witness for C5: moving plot "pB" from dashboard "B" into the full "d1"
fails with the capacity error, while a field-free update succeeds and keeps
every prior value. -/
theorem updatePlot_capacity_and_patch_witness :
    c5Store.updatePlot "pB" c5MoveUpdate "n9" = Except.error capacityError
  ∧ ∃ s' r', c5Store.updatePlot "pB" c5NoneUpdate "n9" = Except.ok (s', some r')
      ∧ r'.id = c5RowB.id
      ∧ (c5NoneUpdate.title = none → r'.title = c5RowB.title)
      ∧ (c5NoneUpdate.chartSpec = none → r'.chartSpec = c5RowB.chartSpec)
      ∧ (c5NoneUpdate.chartOption = none → r'.chartOption = c5RowB.chartOption)
      ∧ (c5NoneUpdate.layout = none →
          (mapPlotRow r').layout = (mapPlotRow c5RowB).layout)
      ∧ r'.dashboardId = c5NoneUpdate.dashboardId.getD c5RowB.dashboardId
      ∧ r'.updatedAt = "n9" := by
  constructor
  · exact updatePlot_capacity_and_patch.1 c5Store "pB" c5MoveUpdate "n9" c5RowB "d1"
      (by decide) (by decide) (by decide) (by decide)
  · exact updatePlot_capacity_and_patch.2.2 c5Store "pB" c5NoneUpdate "n9" c5RowB
      (by decide) (Or.inl (by decide))

/-! ## KnowledgeStore (src/server/dist/lib/KnowledgeStore.js)

`digest` stands for the sha-256 hex digest used by `computeSqlHash`; every

theorem below holds for an arbitrary digest function, and the concrete
witnesses instantiate it. -/

theorem dedupe_hash_nodup :
    ∀ (l : List PreparedKnowledgeEntry) (seen : List String),
      ((dedupeByHashAux seen l).map (fun e => e.sqlHash)).Nodup
      ∧ ∀ h ∈ (dedupeByHashAux seen l).map (fun e => e.sqlHash), h ∉ seen := by
  intro l
  induction l with
  | nil => intro seen; simp [dedupeByHashAux]
  | cons e rest ih =>
    intro seen
    unfold dedupeByHashAux
    by_cases hmem : e.sqlHash ∈ seen
    · rw [if_pos hmem]
      exact ih seen
    · rw [if_neg hmem]
      constructor
      · simp only [List.map_cons, List.nodup_cons]
        refine ⟨?_, (ih (e.sqlHash :: seen)).1⟩
        intro hc
        have := (ih (e.sqlHash :: seen)).2 _ hc
        simp at this
      · intro h hh
        simp only [List.map_cons, List.mem_cons] at hh
        rcases hh with hh | hh
        · subst hh
          exact hmem
        · have := (ih (e.sqlHash :: seen)).2 _ hh
          intro hcon
          exact this (List.mem_cons_of_mem _ hcon)

theorem save_inserts_net_new (digest : String → String) (s : KnowledgeStoreState)
    (entries : List KnowledgeEntryInput) (now : String) :
    ∃ inserted,
      (saveKnowledgeEntries digest s entries now).1.rows = s.rows ++ inserted
      ∧ (inserted.map (fun r => r.sqlHash)).Nodup
      ∧ ∀ r ∈ inserted, r.sqlHash ∉ s.storeHashes := by
  unfold saveKnowledgeEntries
  by_cases h1 : entries.isEmpty = true
  · rw [if_pos h1]
    exact ⟨[], by simp⟩
  · rw [if_neg h1]
    by_cases h2 : (prepareEntries digest entries).isEmpty = true
    · rw [if_pos h2]
      exact ⟨[], by simp⟩
    · rw [if_neg h2]
      refine ⟨_, rfl, ?_, ?_⟩
      · have hsub : ((dedupeByHash (prepareEntries digest entries)).filter
            (fun e => !(s.storeHashes.contains e.sqlHash))).Sublist
            (dedupeByHash (prepareEntries digest entries)) := List.filter_sublist _
        have hnodup := (dedupe_hash_nodup (prepareEntries digest entries) []).1
        have : (((dedupeByHash (prepareEntries digest entries)).filter
            (fun e => !(s.storeHashes.contains e.sqlHash))).map
              (fun e => e.sqlHash)).Nodup :=
          (hsub.map (fun e => e.sqlHash)).nodup hnodup
        rw [List.map_map]
        exact this
      · intro r hr
        rcases List.mem_map.mp hr with ⟨e, he, hre⟩
        have hpred := List.of_mem_filter he
        have : s.storeHashes.contains e.sqlHash = false := by
          simpa using hpred
        rw [← hre]
        simpa using this

theorem save_single_new (digest : String → String) (s : KnowledgeStoreState)
    (e : KnowledgeEntryInput) (now : String)
    (ht : (jsTrim (e.sql.getD "") == "") = false)
    (hnew : s.storeHashes.contains
      (computeSqlHash digest (jsTrim (e.sql.getD ""))) = false) :
    saveKnowledgeEntries digest s [e] now =
      ({ rows := s.rows ++ [knowledgeRowOf digest e now] },
       { saved := 1, duplicates := 0 }) := by
  have ht' : ¬ jsTrim (e.sql.getD "") = "" := by simpa using ht
  have hnew' : computeSqlHash digest (jsTrim (e.sql.getD "")) ∉ s.storeHashes := by
    simpa using hnew
  unfold saveKnowledgeEntries prepareEntries dedupeByHash
  simp [dedupeByHashAux, ht', hnew', knowledgeRowOf]

theorem save_single_dup (digest : String → String) (s : KnowledgeStoreState)
    (e : KnowledgeEntryInput) (now : String)
    (ht : (jsTrim (e.sql.getD "") == "") = false)
    (hdup : s.storeHashes.contains
      (computeSqlHash digest (jsTrim (e.sql.getD ""))) = true) :
    saveKnowledgeEntries digest s [e] now = (s, { saved := 0, duplicates := 1 }) := by
  have ht' : ¬ jsTrim (e.sql.getD "") = "" := by simpa using ht
  have hdup' : computeSqlHash digest (jsTrim (e.sql.getD "")) ∈ s.storeHashes := by
    simpa using hdup
  unfold saveKnowledgeEntries prepareEntries dedupeByHash
  simp [dedupeByHashAux, ht', hdup']

/-- C7: saving one net-new SQL text reports saved 1 / duplicates 0 and the
identical re-save reports saved 0 / duplicates 1 with the store unchanged;
in general, any save only appends rows whose hashes are pairwise distinct
and absent from the store, so a hash-unique store stays hash-unique. -/
theorem saveKnowledgeEntries_idempotent :
    (∀ (digest : String → String) (s : KnowledgeStoreState)
       (e : KnowledgeEntryInput) (n1 n2 : String),
       (jsTrim (e.sql.getD "") == "") = false →
       s.storeHashes.contains (computeSqlHash digest (jsTrim (e.sql.getD ""))) = false →
       ∃ s1, saveKnowledgeEntries digest s [e] n1 = (s1, { saved := 1, duplicates := 0 })
         ∧ saveKnowledgeEntries digest s1 [e] n2 = (s1, { saved := 0, duplicates := 1 }))
  ∧ (∀ (digest : String → String) (s : KnowledgeStoreState)
       (entries : List KnowledgeEntryInput) (now : String),
       ∃ inserted,
         (saveKnowledgeEntries digest s entries now).1.rows = s.rows ++ inserted
         ∧ (inserted.map (fun r => r.sqlHash)).Nodup
         ∧ ∀ r ∈ inserted, r.sqlHash ∉ s.storeHashes)
  ∧ (∀ (digest : String → String) (s : KnowledgeStoreState)
       (entries : List KnowledgeEntryInput) (now : String),
       s.storeHashes.Nodup →
       (saveKnowledgeEntries digest s entries now).1.storeHashes.Nodup) := by
  refine ⟨?_, save_inserts_net_new, ?_⟩
  · intro digest s e n1 n2 ht hnew
    refine ⟨_, save_single_new digest s e n1 ht hnew, ?_⟩
    apply save_single_dup digest _ e n2 ht
    simp [KnowledgeStoreState.storeHashes, knowledgeRowOf]
  · intro digest s entries now hnodup
    obtain ⟨ins, hrows, hnd, hdisj⟩ := save_inserts_net_new digest s entries now
    show ((saveKnowledgeEntries digest s entries now).1.rows.map
      (fun r => r.sqlHash)).Nodup
    rw [hrows, List.map_append, List.nodup_append]
    refine ⟨hnodup, hnd, ?_⟩
    intro a ha hb
    rcases List.mem_map.mp hb with ⟨r, hr, hra⟩
    exact hdisj r hr (hra ▸ ha)

/-- Witness for C7 at the empty store with the identity digest. -/
theorem saveKnowledgeEntries_idempotent_witness :
    ∃ s1, saveKnowledgeEntries (fun x => x) emptyKnowledgeStore [c7Entry] "n1"
        = (s1, { saved := 1, duplicates := 0 })
      ∧ saveKnowledgeEntries (fun x => x) s1 [c7Entry] "n2"
        = (s1, { saved := 0, duplicates := 1 }) :=
  saveKnowledgeEntries_idempotent.1 (fun x => x) emptyKnowledgeStore c7Entry
    "n1" "n2" (by decide) (by decide)

/-! ## AgentManager (src/server/dist/lib/AgentManager.js) and the
processChat pipeline (src/server/src/index.ts)

`AgentManager.startThread` mints a local thread id
`` `${agentType}_${Date.now()}_${Math.random().toString(36).substring(7)}` ``
before any runtime event has revealed the runtime's own id; `nowMs` and
`randSuffix` stand for the two dynamic components. -/

theorem upsertThread_events {ε : Type} (s : ThreadStoreState ε)
    (p : ThreadUpsertPayload) (now : String) :
    (s.upsertThread p now).events = s.events := by
  unfold ThreadStoreState.upsertThread
  cases s.threads.find? (fun r => r.id == p.id) <;> rfl

theorem updateThreadMeta_events {ε : Type} (s : ThreadStoreState ε)
    (tid : String) (u : ThreadMetaUpdates) (now : String) :
    (s.updateThreadMeta tid u now).events = s.events := by
  unfold ThreadStoreState.updateThreadMeta
  by_cases h1 : (tid == "") = true
  · rw [if_pos h1]
  · rw [if_neg h1]
    by_cases h2 : (u.title.isNone && u.lastUserMessage.isNone &&
        u.lastAgentMessage.isNone && u.lastClientId.isNone) = true
    · rw [if_pos h2]
    · rw [if_neg h2]

theorem countThreadInfo_append (l1 l2 : List ChatEventOut) :
    countThreadInfo (l1 ++ l2) = countThreadInfo l1 + countThreadInfo l2 := by
  unfold countThreadInfo
  rw [List.filter_append, List.length_append]

theorem countPersistedUserMessages_def (s : ThreadStoreState ChatEventOut)
    (jobId : String) :
    countPersistedUserMessages s jobId
      = (s.events.filter (isUserMessageRow jobId)).length := rfl

theorem countUM_upsert (s : ThreadStoreState ChatEventOut)
    (p : ThreadUpsertPayload) (now jobId : String) :
    countPersistedUserMessages (s.upsertThread p now) jobId
      = countPersistedUserMessages s jobId := by
  rw [countPersistedUserMessages_def, countPersistedUserMessages_def,
    upsertThread_events]

theorem countUM_meta (s : ThreadStoreState ChatEventOut)
    (tid : String) (u : ThreadMetaUpdates) (now jobId : String) :
    countPersistedUserMessages (s.updateThreadMeta tid u now) jobId
      = countPersistedUserMessages s jobId := by
  rw [countPersistedUserMessages_def, countPersistedUserMessages_def,
    updateThreadMeta_events]

theorem countUM_appendEvent (s : ThreadStoreState ChatEventOut)
    (tid jid ty : String) (payload : ChatEventOut) (now jobId : String) :
    countPersistedUserMessages (s.appendEvent tid jid ty payload now) jobId
      = countPersistedUserMessages s jobId +
        (if (tid == "") = true then 0
         else if isUserMessageRow jobId
            { id := s.nextEventId, threadId := tid, jobId := jid,
              eventType := ty, eventPayload := payload, createdAt := now } then 1
         else 0) := by
  rw [countPersistedUserMessages_def, countPersistedUserMessages_def]
  unfold ThreadStoreState.appendEvent
  by_cases h1 : (tid == "") = true
  · rw [if_pos h1, if_pos h1]
    rfl
  · rw [if_neg h1, if_neg h1]
    show (List.filter _ (s.events ++ [_])).length = _
    rw [List.filter_append, List.length_append]
    by_cases h2 : isUserMessageRow jobId
        { id := s.nextEventId, threadId := tid, jobId := jid,
          eventType := ty, eventPayload := payload, createdAt := now } = true
    · rw [if_pos h2]
      simp [h2]
    · rw [if_neg h2]
      simp only [Bool.not_eq_true] at h2
      simp [h2]

theorem countUM_not_user (s : ThreadStoreState ChatEventOut)
    (tid jid ty : String) (payload : ChatEventOut) (now jobId : String)
    (hp : (match payload with
      | ChatEventOut.userMessage _ _ _ _ => true
      | _ => false) = false) :
    countPersistedUserMessages (s.appendEvent tid jid ty payload now) jobId
      = countPersistedUserMessages s jobId := by
  rw [countUM_appendEvent]
  by_cases h1 : (tid == "") = true
  · rw [if_pos h1]
    omega
  · rw [if_neg h1]
    have : isUserMessageRow jobId
        { id := s.nextEventId, threadId := tid, jobId := jid,
          eventType := ty, eventPayload := payload, createdAt := now } = false := by
      unfold isUserMessageRow
      simp [hp]
    rw [this]
    simp

theorem countUM_user (s : ThreadStoreState ChatEventOut)
    (tid ty : String) (a b c d : String) (now jobId : String)
    (htid : ¬ (tid == "") = true) :
    countPersistedUserMessages
        (s.appendEvent tid jobId ty (ChatEventOut.userMessage a b c d) now) jobId
      = countPersistedUserMessages s jobId + 1 := by
  rw [countUM_appendEvent]
  rw [if_neg htid]
  have : isUserMessageRow jobId
      { id := s.nextEventId, threadId := tid, jobId := jobId,
        eventType := ty, eventPayload := ChatEventOut.userMessage a b c d,
        createdAt := now } = true := by
    unfold isUserMessageRow
    simp
  rw [this]
  simp

theorem countUM_fresh (s : ThreadStoreState ChatEventOut) (jobId : String)
    (h : ∀ r ∈ s.events, r.jobId ≠ jobId) :
    countPersistedUserMessages s jobId = 0 := by
  rw [countPersistedUserMessages_def]
  rw [List.filter_eq_nil_iff.mpr]
  · rfl
  · intro r hr
    unfold isUserMessageRow
    have := h r hr
    simp [this]

theorem stepChatEvent_persisted (m n : String) (st : ChatLoopState)
    (e : AgentStreamEvent) (h : st.threadMetadataPersisted = true) :
    (stepChatEvent m n st e).threadMetadataPersisted = true
    ∧ (stepChatEvent m n st e).job = st.job
    ∧ countThreadInfo (stepChatEvent m n st e).frames = countThreadInfo st.frames
    ∧ (∀ J, countPersistedUserMessages (stepChatEvent m n st e).store J
        = countPersistedUserMessages st.store J)
    ∧ (stepChatEvent m n st e).reconciliations = st.reconciliations := by
  unfold stepChatEvent
  simp only [h, Bool.not_true, Bool.false_and, Bool.and_false, if_false,
    Bool.false_eq_true, if_true]
  by_cases ha : jsTruthy st.actualThreadId = false
  · rw [if_pos ha]
    exact ⟨h, rfl, rfl, fun J => rfl, rfl⟩
  · rw [if_neg ha]
    by_cases hi : (e.type == "item.completed" && e.itemType == some "agent_message"
        && jsTruthy e.itemText) = true
    · rw [if_pos hi]
      refine ⟨rfl, rfl, ?_, ?_, rfl⟩
      · rw [countThreadInfo_append]
        simp [countThreadInfo]
      · intro J
        rw [countUM_meta, countUM_not_user]
        rfl
    · rw [if_neg hi]
      refine ⟨rfl, rfl, ?_, ?_, rfl⟩
      · rw [countThreadInfo_append]
        simp [countThreadInfo]
      · intro J
        rw [countUM_not_user]
        rfl

theorem foldl_steps_persisted (m n : String) :
    ∀ (evs : List AgentStreamEvent) (st : ChatLoopState),
      st.threadMetadataPersisted = true →
      (evs.foldl (stepChatEvent m n) st).threadMetadataPersisted = true
      ∧ (evs.foldl (stepChatEvent m n) st).job = st.job
      ∧ countThreadInfo (evs.foldl (stepChatEvent m n) st).frames
          = countThreadInfo st.frames
      ∧ (∀ J, countPersistedUserMessages (evs.foldl (stepChatEvent m n) st).store J
          = countPersistedUserMessages st.store J)
      ∧ (evs.foldl (stepChatEvent m n) st).reconciliations = st.reconciliations := by
  intro evs
  induction evs with
  | nil => intro st h; exact ⟨h, rfl, rfl, fun J => rfl, rfl⟩
  | cons e rest ih =>
    intro st h
    rw [List.foldl_cons]
    obtain ⟨h1, h2, h3, h4, h5⟩ := stepChatEvent_persisted m n st e h
    obtain ⟨g1, g2, g3, g4, g5⟩ := ih (stepChatEvent m n st e) h1
    exact ⟨g1, g2.trans h2, g3.trans h3, fun J => (g4 J).trans (h4 J),
      g5.trans h5⟩

theorem completeChat_counts (d : Int) (n : String) (st : ChatLoopState) :
    (completeChat d n st).job.jobId = st.job.jobId
    ∧ countThreadInfo (completeChat d n st).frames = countThreadInfo st.frames
    ∧ (∀ J, countPersistedUserMessages (completeChat d n st).store J
        = countPersistedUserMessages st.store J)
    ∧ (completeChat d n st).reconciliations = st.reconciliations := by
  unfold completeChat
  by_cases hc : (st.threadMetadataPersisted && jsTruthy st.actualThreadId) = true
  · rw [if_pos hc]
    refine ⟨rfl, ?_, ?_, rfl⟩
    · rw [countThreadInfo_append]
      simp [countThreadInfo]
    · intro J
      rw [countUM_not_user]
      rfl
  · rw [if_neg hc]
    refine ⟨rfl, ?_, fun J => rfl, rfl⟩
    rw [countThreadInfo_append]
    simp [countThreadInfo]

theorem handleChatError_counts (msg n : String) (st : ChatLoopState) :
    (handleChatError msg n st).job.jobId = st.job.jobId
    ∧ countThreadInfo (handleChatError msg n st).frames = countThreadInfo st.frames
    ∧ (∀ J, countPersistedUserMessages (handleChatError msg n st).store J
        = countPersistedUserMessages st.store J)
    ∧ (handleChatError msg n st).reconciliations = st.reconciliations := by
  unfold handleChatError
  by_cases hc : (jsTruthy st.job.threadId &&
      !(isTemporaryThreadId st.job.threadId)) = true
  · rw [if_pos hc]
    refine ⟨rfl, ?_, ?_, rfl⟩
    · rw [countThreadInfo_append]
      simp [countThreadInfo]
    · intro J
      rw [countUM_not_user]
      rfl
  · rw [if_neg hc]
    refine ⟨rfl, ?_, fun J => rfl, rfl⟩
    rw [countThreadInfo_append]
    simp [countThreadInfo]

theorem eagerPersistPhase_fires (m n : String) (st0 : ChatLoopState)
    (huser : st0.userEventPersisted = false)
    (hg : (jsTruthy st0.actualThreadId &&
      !(isTemporaryThreadId st0.actualThreadId)) = true) :
    (eagerPersistPhase m n st0).threadMetadataPersisted = true
    ∧ (eagerPersistPhase m n st0).job = st0.job
    ∧ countThreadInfo (eagerPersistPhase m n st0).frames
        = countThreadInfo st0.frames + 1
    ∧ countPersistedUserMessages (eagerPersistPhase m n st0).store st0.job.jobId
        = countPersistedUserMessages st0.store st0.job.jobId + 1
    ∧ (eagerPersistPhase m n st0).reconciliations = st0.reconciliations := by
  obtain ⟨hg1, hg2⟩ := (Bool.and_eq_true _ _).mp hg
  obtain ⟨av, hav, havne⟩ := (jsTruthy_iff st0.actualThreadId).mp hg1
  have hgetd : st0.actualThreadId.getD "" = av := by rw [hav]; rfl
  have havne' : ¬ (av == "") = true := by simpa using havne
  unfold eagerPersistPhase ensureUserEventPersisted persistUserMessageEvent
  rw [if_pos hg]
  simp only [huser, Bool.not_false, Bool.true_and, hg1, hg2, Bool.not_true,
    Bool.and_true, Bool.not_false]
  rw [if_pos (by simp only [hg1, hg2])]
  refine ⟨rfl, rfl, ?_, ?_, rfl⟩
  · rw [countThreadInfo_append, countThreadInfo_append]
    simp [countThreadInfo]
  · rw [hgetd]
    rw [countUM_user _ _ _ _ _ _ _ _ _ havne']
    rw [countUM_upsert]

theorem stepChatEvent_reconciles (m n : String) (st : ChatLoopState)
    (e0 : AgentStreamEvent) (tid : String)
    (hmeta : st.threadMetadataPersisted = false)
    (huser : st.userEventPersisted = false)
    (htype : e0.type = "thread.started")
    (hid : e0.thread_id = some tid)
    (htid : tid ≠ "")
    (htemp : strStartsWith tid "temp_" = false) :
    (stepChatEvent m n st e0).threadMetadataPersisted = true
    ∧ (stepChatEvent m n st e0).job.jobId = st.job.jobId
    ∧ countThreadInfo (stepChatEvent m n st e0).frames
        = countThreadInfo st.frames + 1
    ∧ countPersistedUserMessages (stepChatEvent m n st e0).store st.job.jobId
        = countPersistedUserMessages st.store st.job.jobId + 1
    ∧ (stepChatEvent m n st e0).reconciliations = st.reconciliations + 1 := by
  have htidne : ¬ (tid == "") = true := by simpa using htid
  have hbt : (e0.type == "thread.started") = true := by simp [htype]
  have hjt : jsTruthy e0.thread_id = true := by
    rw [hid]
    simp [jsTruthy, htidne]
  have hjt2 : jsTruthy (some tid) = true := by simp [jsTruthy, htidne]
  have hitemp : isTemporaryThreadId (some tid) = false := by
    simp [isTemporaryThreadId, htemp]
  unfold stepChatEvent ensureUserEventPersisted persistUserMessageEvent
  simp only [hmeta, Bool.not_false, Bool.true_and, hbt, hjt, Bool.and_self,
    if_true, hid, Option.getD_some, huser, hitemp, hjt2, Bool.and_true,
    Bool.not_true, Bool.true_eq_false, Bool.false_eq_true, if_false]
  by_cases hs : (st.actualThreadId == some tid) = true
  · have ha : st.actualThreadId = some tid := by simpa using hs
    simp only [ha, beq_self_eq_true, Bool.not_true, Bool.false_eq_true, if_false,
      Option.getD_some, hjt2, Bool.true_eq_false, Bool.and_true, Bool.true_and,
      Bool.not_false, Bool.and_self, if_true, hitemp, huser]
    by_cases hi : (e0.type == "item.completed" &&
        e0.itemType == some "agent_message" && jsTruthy e0.itemText) = true
    · rw [if_pos hi]
      refine ⟨rfl, rfl, ?_, ?_, rfl⟩
      · rw [countThreadInfo_append, countThreadInfo_append,
          countThreadInfo_append]
        simp [countThreadInfo]
      · rw [countUM_meta, countUM_not_user _ _ _ _ _ _ _ rfl,
          countUM_user _ _ _ _ _ _ _ _ _ htidne, countUM_upsert]
    · rw [if_neg hi]
      refine ⟨rfl, rfl, ?_, ?_, rfl⟩
      · rw [countThreadInfo_append, countThreadInfo_append,
          countThreadInfo_append]
        simp [countThreadInfo]
      · rw [countUM_not_user _ _ _ _ _ _ _ rfl,
          countUM_user _ _ _ _ _ _ _ _ _ htidne, countUM_upsert]
  · have hs' : (st.actualThreadId == some tid) = false := by simpa using hs
    simp only [hs', Bool.not_false, Bool.false_eq_true, if_true,
      Option.getD_some, hjt2, Bool.true_eq_false, Bool.and_true, Bool.true_and,
      Bool.not_true, Bool.and_self, hitemp, if_false, huser]
    by_cases hi : (e0.type == "item.completed" &&
        e0.itemType == some "agent_message" && jsTruthy e0.itemText) = true
    · rw [if_pos hi]
      refine ⟨rfl, rfl, ?_, ?_, rfl⟩
      · rw [countThreadInfo_append, countThreadInfo_append,
          countThreadInfo_append]
        simp [countThreadInfo]
      · rw [countUM_meta, countUM_not_user _ _ _ _ _ _ _ rfl,
          countUM_user _ _ _ _ _ _ _ _ _ htidne, countUM_upsert]
    · rw [if_neg hi]
      refine ⟨rfl, rfl, ?_, ?_, rfl⟩
      · rw [countThreadInfo_append, countThreadInfo_append,
          countThreadInfo_append]
        simp [countThreadInfo]
      · rw [countUM_not_user _ _ _ _ _ _ _ rfl,
          countUM_user _ _ _ _ _ _ _ _ _ htidne, countUM_upsert]

theorem resolveThread_jobId (job : JobInfo) (res : ThreadResolution) :
    (resolveThread job res).1.jobId = job.jobId := by
  cases res <;> rfl

theorem chat_counts_core (m n : String) (st0 : ChatLoopState)
    (e0 : AgentStreamEvent) (rest : List AgentStreamEvent)
    (streamError : Option String) (durationMs : Int) (tid : String)
    (hmeta0 : st0.threadMetadataPersisted = false)
    (huser0 : st0.userEventPersisted = false)
    (htype : e0.type = "thread.started")
    (hid : e0.thread_id = some tid)
    (htid : tid ≠ "")
    (htemp : strStartsWith tid "temp_" = false) :
    countThreadInfo (match streamError with
        | none => completeChat durationMs n
            ((e0 :: rest).foldl (stepChatEvent m n) (eagerPersistPhase m n st0))
        | some msg => handleChatError msg n
            ((e0 :: rest).foldl (stepChatEvent m n)
              (eagerPersistPhase m n st0))).frames
      = countThreadInfo st0.frames + 1
    ∧ countPersistedUserMessages (match streamError with
        | none => completeChat durationMs n
            ((e0 :: rest).foldl (stepChatEvent m n) (eagerPersistPhase m n st0))
        | some msg => handleChatError msg n
            ((e0 :: rest).foldl (stepChatEvent m n)
              (eagerPersistPhase m n st0))).store st0.job.jobId
      = countPersistedUserMessages st0.store st0.job.jobId + 1
    ∧ (match streamError with
        | none => completeChat durationMs n
            ((e0 :: rest).foldl (stepChatEvent m n) (eagerPersistPhase m n st0))
        | some msg => handleChatError msg n
            ((e0 :: rest).foldl (stepChatEvent m n)
              (eagerPersistPhase m n st0))).reconciliations
      ≤ st0.reconciliations + 1 := by
  have hstep2 :
      ((e0 :: rest).foldl (stepChatEvent m n)
        (eagerPersistPhase m n st0)).threadMetadataPersisted = true
      ∧ countThreadInfo ((e0 :: rest).foldl (stepChatEvent m n)
          (eagerPersistPhase m n st0)).frames = countThreadInfo st0.frames + 1
      ∧ countPersistedUserMessages ((e0 :: rest).foldl (stepChatEvent m n)
          (eagerPersistPhase m n st0)).store st0.job.jobId
        = countPersistedUserMessages st0.store st0.job.jobId + 1
      ∧ ((e0 :: rest).foldl (stepChatEvent m n)
          (eagerPersistPhase m n st0)).reconciliations
        ≤ st0.reconciliations + 1 := by
    rw [List.foldl_cons]
    by_cases hg : (jsTruthy st0.actualThreadId &&
        !(isTemporaryThreadId st0.actualThreadId)) = true
    · obtain ⟨e1, e2, e3, e4, e5⟩ := eagerPersistPhase_fires m n st0 huser0 hg
      obtain ⟨s1, s2, s3, s4, s5⟩ :=
        stepChatEvent_persisted m n (eagerPersistPhase m n st0) e0 e1
      obtain ⟨f1, f2, f3, f4, f5⟩ := foldl_steps_persisted m n rest
        (stepChatEvent m n (eagerPersistPhase m n st0) e0) s1
      refine ⟨f1, ?_, ?_, ?_⟩
      · rw [f3, s3, e3]
      · rw [f4, s4]
        exact e4
      · rw [f5, s5, e5]
        omega
    · have heq : eagerPersistPhase m n st0 = st0 := by
        unfold eagerPersistPhase
        rw [if_neg hg]
      rw [heq]
      obtain ⟨r1, r2, r3, r4, r5⟩ :=
        stepChatEvent_reconciles m n st0 e0 tid hmeta0 huser0 htype hid htid htemp
      obtain ⟨f1, f2, f3, f4, f5⟩ := foldl_steps_persisted m n rest
        (stepChatEvent m n st0 e0) r1
      refine ⟨f1, ?_, ?_, ?_⟩
      · rw [f3, r3]
      · rw [f4]
        exact r4
      · rw [f5, r5]
  obtain ⟨hp, hti, hum, hrec⟩ := hstep2
  cases streamError with
  | none =>
    obtain ⟨c1, c2, c3, c4⟩ := completeChat_counts durationMs n _
    exact ⟨c2.trans hti, (c3 _).trans hum, c4 ▸ hrec⟩
  | some msg =>
    obtain ⟨c1, c2, c3, c4⟩ := handleChatError_counts msg n _
    exact ⟨c2.trans hti, (c3 _).trans hum, c4 ▸ hrec⟩

/-- C2: whenever the first stream event already carries a canonical (truthy,
non-`temp_`) thread id, a `processChat` run pushes exactly one `thread_info`
frame and persists exactly one durable user-message event for the job, and
the reconciliation block runs at most once — whichever resolution path was
taken and whether the stream later completes or throws. -/
theorem thread_info_and_user_event_exactly_once :
    ∀ (job0 : JobInfo) (res : ThreadResolution) (message : String)
      (e0 : AgentStreamEvent) (rest : List AgentStreamEvent)
      (streamError : Option String) (durationMs : Int) (now : String)
      (store0 : ThreadStoreState ChatEventOut) (tid : String),
      e0.type = "thread.started" → e0.thread_id = some tid → tid ≠ "" →
      strStartsWith tid "temp_" = false →
      (∀ r ∈ store0.events, r.jobId ≠ job0.jobId) →
      countThreadInfo (runChat job0 res message (e0 :: rest) streamError
          durationMs now store0).frames = 1
      ∧ countPersistedUserMessages (runChat job0 res message (e0 :: rest)
          streamError durationMs now store0).store job0.jobId = 1
      ∧ (runChat job0 res message (e0 :: rest) streamError durationMs now
          store0).reconciliations ≤ 1 := by
  intro job0 res message e0 rest streamError durationMs now store0 tid
    htype hid htid htemp hfresh
  simp only [runChat]
  obtain ⟨h1, h2, h3⟩ := chat_counts_core message now
    { job := (resolveThread { job0 with status := JobStatus.processing } res).1
      actualThreadId :=
        (resolveThread { job0 with status := JobStatus.processing } res).2
      threadMetadataPersisted := false
      userEventPersisted := false
      store := store0
      frames := []
      reconciliations := 0
      rekeys := [] }
    e0 rest streamError durationMs tid rfl rfl htype hid htid htemp
  have jid : (resolveThread { job0 with status := JobStatus.processing }
      res).1.jobId = job0.jobId := resolveThread_jobId _ _
  rw [jid] at h2
  rw [countUM_fresh store0 job0.jobId hfresh] at h2
  exact ⟨h1, h2, h3⟩

/-- Witness for C2: a fresh submission whose first stream event names the
canonical id `run_42`. -/
theorem thread_info_and_user_event_exactly_once_witness :
    countThreadInfo (runChat c2Job (ThreadResolution.started "chit_chat_1_ab")
        "hi" [c2FirstEvent] none 5 "T" (emptyThreadStore ChatEventOut)).frames = 1
    ∧ countPersistedUserMessages (runChat c2Job
        (ThreadResolution.started "chit_chat_1_ab") "hi" [c2FirstEvent] none 5
        "T" (emptyThreadStore ChatEventOut)).store "job-2" = 1
    ∧ (runChat c2Job (ThreadResolution.started "chit_chat_1_ab") "hi"
        [c2FirstEvent] none 5 "T"
        (emptyThreadStore ChatEventOut)).reconciliations ≤ 1 :=
  thread_info_and_user_event_exactly_once c2Job
    (ThreadResolution.started "chit_chat_1_ab") "hi" c2FirstEvent [] none 5 "T"
    (emptyThreadStore ChatEventOut) "run_42" rfl rfl (by decide) (by decide)
    (by intro r hr; simp [emptyThreadStore] at hr)

/-- C1 (evaluation at the failing input): `startThread` mints
`chit_chat_1700000000000_ab12cd`, which `isTemporaryThreadId` does not
recognise as temporary — it only matches the prefix `temp_`, which nothing
in the repository ever produces — so on a submission resolved via
`startThread` the eager-persistence phase runs before any stream event:
with an empty stream (no canonical id was ever revealed) the run has
already upserted thread metadata under the minted id, pushed a
`thread_info` frame carrying it, and appended the durable user-message
event under it. -/
theorem eager_persistence_fires_for_minted_startThread_id :
    isTemporaryThreadId (some (mintThreadId "chit_chat" "1700000000000"
      "ab12cd")) = false
    ∧ (runChat c1Job (ThreadResolution.started
        (mintThreadId "chit_chat" "1700000000000" "ab12cd")) "hi" [] none 0 "T"
        (emptyThreadStore ChatEventOut)).frames
      = [ChatEventOut.threadInfo "job-1" "chit_chat_1700000000000_ab12cd"
           "chit_chat",
         ChatEventOut.userMessage "job-1" "chit_chat"
           "chit_chat_1700000000000_ab12cd" "hi",
         ChatEventOut.jobComplete "job-1"
           (some "chit_chat_1700000000000_ab12cd") 0]
    ∧ countThreadInfo (runChat c1Job (ThreadResolution.started
        (mintThreadId "chit_chat" "1700000000000" "ab12cd")) "hi" [] none 0 "T"
        (emptyThreadStore ChatEventOut)).frames = 1
    ∧ countPersistedUserMessages (runChat c1Job (ThreadResolution.started
        (mintThreadId "chit_chat" "1700000000000" "ab12cd")) "hi" [] none 0 "T"
        (emptyThreadStore ChatEventOut)).store "job-1" = 1
    ∧ ((runChat c1Job (ThreadResolution.started
        (mintThreadId "chit_chat" "1700000000000" "ab12cd")) "hi" [] none 0 "T"
        (emptyThreadStore ChatEventOut)).store.threads.map (fun r => r.id))
      = ["chit_chat_1700000000000_ab12cd"] := by
  decide

/-- C4 (evaluation at the failing input): when the stream throws on a job
whose thread was resolved via `startThread`, the catch block does set the
errored status, end time and message and relay the error event, but it also
appends the error event durably under the minted id
`chit_chat_1700000000000_ab12cd` — an id no stream event ever declared
canonical (the stream was empty) — because `isTemporaryThreadId` fails to
classify minted ids as temporary. -/
theorem error_event_persisted_under_minted_id :
    (runChat c1Job (ThreadResolution.started
        (mintThreadId "chit_chat" "1700000000000" "ab12cd")) "hi" []
        (some "boom") 0 "T" (emptyThreadStore ChatEventOut)).job.status
      = JobStatus.errored
    ∧ (runChat c1Job (ThreadResolution.started
        (mintThreadId "chit_chat" "1700000000000" "ab12cd")) "hi" []
        (some "boom") 0 "T" (emptyThreadStore ChatEventOut)).job.endTimeSet
      = true
    ∧ (runChat c1Job (ThreadResolution.started
        (mintThreadId "chit_chat" "1700000000000" "ab12cd")) "hi" []
        (some "boom") 0 "T" (emptyThreadStore ChatEventOut)).job.error
      = some "boom"
    ∧ ChatEventOut.errorEvent "job-1" "boom"
        ∈ (runChat c1Job (ThreadResolution.started
            (mintThreadId "chit_chat" "1700000000000" "ab12cd")) "hi" []
            (some "boom") 0 "T" (emptyThreadStore ChatEventOut)).frames
    ∧ (((runChat c1Job (ThreadResolution.started
          (mintThreadId "chit_chat" "1700000000000" "ab12cd")) "hi" []
          (some "boom") 0 "T"
          (emptyThreadStore ChatEventOut)).store.events.filter
          (fun r => r.eventType == "error")).map
          (fun r => (r.threadId, r.eventPayload)))
      = [("chit_chat_1700000000000_ab12cd",
          ChatEventOut.errorEvent "job-1" "boom")]
    ∧ isTemporaryThreadId (some (mintThreadId "chit_chat" "1700000000000"
        "ab12cd")) = false := by
  decide
